import Mathlib

/-!
# Verification of the service-worker caching core (`src/sw.js`)

A shallow embedding of the worker-side logic of the Daily Reminder app:
the install and activate lifecycle handlers, the fetch router, and the two
cache-first resolution policies (`handleDocumentRequest`,
`handleAssetRequest`).

External platform capabilities (the Cache Storage API and the network
`fetch`) are modelled explicitly: the cache store is an association list
`namespace → (url → response)`, and the outcomes of the awaited external
steps (network fetch, cache lookup rejection, `caches.open` rejection,
`caches.delete` rejection) are supplied by an `Env` record, so the embedded
handlers are pure functions of the environment and the store.  Each handler
also reports how many network fetches, cache reads and cache writes it
performed, which lets us state the no-network / no-cache-touch properties.
-/

namespace SW

/-- A stored or synthesized HTTP response snapshot: status, status text,
the `Content-Type` header (absent when the constructor got no headers),
and the body text. -/
structure Response where
  status : Nat
  statusText : String
  contentType : Option String
  body : String
deriving DecidableEq, Repr

/-- An intercepted fetch event: the request method, the request
destination (`"document"` for top-level documents) and the request URL. -/
structure FetchEvent where
  method : String
  destination : String
  url : String
deriving DecidableEq, Repr

/-- Entries of one cache namespace: request URL mapped to stored response. -/
abbrev Entry := String × Response

/-- The Cache Storage: a list of namespaces, each a name with its entries. -/
abbrev CacheStore := List (String × List Entry)

/-- Constant `CACHE_NAME = "daily-reminder-v1"` (src/sw.js line 6). -/
def CACHE_NAME : String := "daily-reminder-v1"

/-- Manifest `STATIC_CACHE_URLS` (src/sw.js lines 7–13). -/
def STATIC_CACHE_URLS : List String :=
  ["./", "./index.html", "./styles.css", "./script.js", "./manifest.json"]

/-- Look a URL up in the entry list of one namespace (first match). -/
def entriesMatch : List Entry → String → Option Response
  | [], _ => none
  | (u, r) :: rest, url => if u = url then some r else entriesMatch rest url

/-- Overwrite-or-append a URL/response pair in the entries of one
namespace (the semantics of `cache.put`). -/
def entriesPut : List Entry → String → Response → List Entry
  | [], url, resp => [(url, resp)]
  | (u, r) :: rest, url, resp =>
    if u = url then (u, resp) :: rest else (u, r) :: entriesPut rest url resp

/-- Model of `caches.match(request)`: scan all namespaces in order,
returning the first stored response for the URL. -/
def storeMatch : CacheStore → String → Option Response
  | [], _ => none
  | (_, es) :: rest, url =>
    match entriesMatch es url with
    | some r => some r
    | none => storeMatch rest url

/-- Model of `caches.open(name)`: create the namespace if absent. -/
def storeOpen (s : CacheStore) (name : String) : CacheStore :=
  if (s.map Prod.fst).contains name then s else s ++ [(name, [])]

/-- Model of `cache.put(request, response)` on the namespace `name`. -/
def storePut : CacheStore → String → String → Response → CacheStore
  | [], name, url, resp => [(name, [(url, resp)])]
  | (n, es) :: rest, name, url, resp =>
    if n = name then (n, entriesPut es url resp) :: rest
    else (n, es) :: storePut rest name url resp

/-- Lookup restricted to a single namespace (`match` under one cache). -/
def nsMatch (s : CacheStore) (name url : String) : Option Response :=
  match s with
  | [] => none
  | (n, es) :: rest => if n = name then entriesMatch es url else nsMatch rest name url

/-- Model of `caches.keys()`: the namespace identifiers present. -/
def listNamespaces (s : CacheStore) : List String := s.map Prod.fst

/-- The outcomes of the external capabilities the worker awaits:
the network fetch result per URL, and failure injection for the cache
lookups (`caches.match` can reject), `caches.open`, and `caches.delete`
(per namespace name). -/
structure Env where
  fetchUrl : String → Except Unit Response
  matchFails : Bool
  fallbackMatchFails : Bool
  openFails : Bool
  deleteFails : String → Bool

/-- JavaScript `String.prototype.includes`: substring containment. -/
def jsIncludes (s pattern : String) : Bool :=
  decide (pattern.data <:+: s.data)

/-- Body of the synthesized offline notice document (src/sw.js lines
109–154); `\x7b`/`\x7d` denote the brace characters and `\x27` the
apostrophes of the original markup. -/
def offlineNoticeBody : String :=
  "<!DOCTYPE html>
            <html>
            <head>
                <title>Daily Reminder - Offline</title>
                <meta charset=\"UTF-8\">
                <meta name=\"viewport\" content=\"width=device-width, initial-scale=1.0\">
                <style>
                    body \x7b
                        font-family: -apple-system, BlinkMacSystemFont, \x27Segoe UI\x27, sans-serif;
                        margin: 0;
                        padding: 2rem;
                        background: #f8f9fa;
                        color: #2c3e50;
                        text-align: center;
                    \x7d
                    .offline-message \x7b
                        max-width: 400px;
                        margin: 4rem auto;
                        padding: 2rem;
                        background: white;
                        border-radius: 8px;
                        box-shadow: 0 2px 10px rgba(0,0,0,0.1);
                    \x7d
                    h1 \x7b color: #dc3545; margin-bottom: 1rem; \x7d
                    p \x7b line-height: 1.6; margin-bottom: 1rem; \x7d
                    button \x7b
                        background: #007bff;
                        color: white;
                        border: none;
                        padding: 0.75rem 1.5rem;
                        border-radius: 4px;
                        cursor: pointer;
                        font-size: 1rem;
                    \x7d
                    button:hover \x7b background: #0056b3; \x7d
                </style>
            </head>
            <body>
                <div class=\"offline-message\">
                    <h1>📝 Daily Reminder</h1>
                    <h2>You\x27re Offline</h2>
                    <p>The app couldn\x27t load properly. Please check your internet connection and try again.</p>
                    <button onclick=\"window.location.reload()\">Retry</button>
                </div>
            </body>
            </html>"

/-- The synthesized offline document (`new Response(body, {headers:
{"Content-Type": "text/html"}})` — default status 200). -/
def offlineNotice : Response :=
  ⟨200, "", some "text/html", offlineNoticeBody⟩

/-- Stylesheet fallback body (src/sw.js line 188); `\x2a` is `*`. -/
def cssFallbackBody : String := "/\x2a Offline fallback styles \x2a/"

/-- Stylesheet fallback response: `Content-Type: text/css`, status 200. -/
def cssFallback : Response := ⟨200, "", some "text/css", cssFallbackBody⟩

/-- No-op script fallback body (src/sw.js line 195). -/
def jsFallbackBody : String :=
  "// Offline fallback script\nconsole.log(\"App running in offline mode\");"

/-- Script fallback response: `Content-Type: application/javascript`. -/
def jsFallback : Response := ⟨200, "", some "application/javascript", jsFallbackBody⟩

/-- `404 Not Found` fallback for other assets (src/sw.js lines 203–206). -/
def notFoundFallback : Response := ⟨404, "Not Found", none, "Asset not available offline"⟩

/-- The asset catch-block fallback chooser (src/sw.js lines 186–206):
substring tests on the full request URL, `.css` checked first. -/
def assetFallback (url : String) : Response :=
  if jsIncludes url ".css" then cssFallback
  else if jsIncludes url ".js" then jsFallback
  else notFoundFallback

deriving instance DecidableEq for Except

/-- Result of running one resolution policy: the response (or a propagated
rejection), the cache store afterwards, and how many network fetches,
cache reads and cache writes the run performed. -/
structure ResolveResult where
  response : Except Unit Response
  store : CacheStore
  fetchCalls : Nat
  cacheReads : Nat
  cacheWrites : Nat
deriving DecidableEq, Repr

/-- The catch block of `handleDocumentRequest` (src/sw.js lines 98–159):
try the cached `"./index.html"`; if present return it, else synthesize the
offline notice.  The lookup itself is awaited, so its rejection propagates
out of the async function. -/
def docCatch (env : Env) (s : CacheStore) (fetches reads : Nat) : ResolveResult :=
  if env.fallbackMatchFails then ⟨.error (), s, fetches, reads + 1, 0⟩
  else
    match storeMatch s "./index.html" with
    | some offline => ⟨.ok offline, s, fetches, reads + 1, 0⟩
    | none => ⟨.ok offlineNotice, s, fetches, reads + 1, 0⟩

/-- Function `handleDocumentRequest` (src/sw.js lines 80–160): cache-first; on a
miss fetch from the network and write the response through into
`CACHE_NAME`; any rejection in the try block falls into the catch. -/
def handleDocumentRequest (env : Env) (s : CacheStore) (url : String) : ResolveResult :=
  if env.matchFails then docCatch env s 0 1
  else
    match storeMatch s url with
    | some cached => ⟨.ok cached, s, 0, 1, 0⟩
    | none =>
      match env.fetchUrl url with
      | .error _ => docCatch env s 1 1
      | .ok networkResponse =>
        if env.openFails then docCatch env s 1 1
        else
          ⟨.ok networkResponse,
            storePut (storeOpen s CACHE_NAME) CACHE_NAME url networkResponse,
            1, 1, 1⟩

/-- Function `handleAssetRequest` (src/sw.js lines 165–208): same cache-first
shape, but the catch block synthesizes a typed fallback without touching
the cache, so no failure can escape it. -/
def handleAssetRequest (env : Env) (s : CacheStore) (url : String) : ResolveResult :=
  if env.matchFails then ⟨.ok (assetFallback url), s, 0, 1, 0⟩
  else
    match storeMatch s url with
    | some cached => ⟨.ok cached, s, 0, 1, 0⟩
    | none =>
      match env.fetchUrl url with
      | .error _ => ⟨.ok (assetFallback url), s, 1, 1, 0⟩
      | .ok networkResponse =>
        if env.openFails then ⟨.ok (assetFallback url), s, 1, 1, 0⟩
        else
          ⟨.ok networkResponse,
            storePut (storeOpen s CACHE_NAME) CACHE_NAME url networkResponse,
            1, 1, 1⟩

/-- Outcome of the fetch listener: pass the request through untouched, or
answer it with a resolution-policy run. -/
inductive FetchOutcome where
  | passthrough
  | handled (r : ResolveResult)
deriving DecidableEq, Repr

/-- The fetch listener / request router (src/sw.js lines 61–75): non-GET
requests return early (never intercepted); documents go to the document
policy, everything else to the asset policy. -/
def fetchHandler (env : Env) (s : CacheStore) (e : FetchEvent) : FetchOutcome :=
  if e.method ≠ "GET" then .passthrough
  else if e.destination = "document" then .handled (handleDocumentRequest env s e.url)
  else .handled (handleAssetRequest env s e.url)

/-- The cache store after a fetch event (unchanged on passthrough). -/
def storeAfter (s : CacheStore) : FetchOutcome → CacheStore
  | .passthrough => s
  | .handled r => r.store

/-- Network fetches, cache reads and cache writes a fetch event caused. -/
def opsOf : FetchOutcome → Nat × Nat × Nat
  | .passthrough => (0, 0, 0)
  | .handled r => (r.fetchCalls, r.cacheReads, r.cacheWrites)

/-- The fetch phase of `cache.addAll`: fetch every URL; the first
rejection rejects the whole operation and nothing is stored. -/
def fetchAll (env : Env) : List String → Except Unit (List (String × Response))
  | [] => .ok []
  | u :: rest =>
    match env.fetchUrl u with
    | .error e => .error e
    | .ok r =>
      match fetchAll env rest with
      | .error e => .error e
      | .ok prs => .ok ((u, r) :: prs)

/-- The batch-write phase of `cache.addAll`: put every fetched pair. -/
def putAll (s : CacheStore) (name : String) : List (String × Response) → CacheStore
  | [] => s
  | (u, r) :: rest => putAll (storePut s name u r) name rest

/-- Result of the install handler: the store afterwards, whether
`self.skipWaiting()` was invoked, and whether the promise given to
`event.waitUntil` fulfilled (install succeeds exactly when it does). -/
structure InstallResult where
  store : CacheStore
  skipWaitingCalled : Bool
  waitUntilFulfilled : Bool
deriving DecidableEq, Repr

/-- The install listener (src/sw.js lines 16–34):
`caches.open(CACHE_NAME).then(cache.addAll(STATIC_CACHE_URLS))
.then(skipWaiting).catch(log)`.  The trailing catch logs the error and
returns, so the `waitUntil` promise fulfills on every path. -/
def installHandler (env : Env) (s : CacheStore) : InstallResult :=
  if env.openFails then ⟨s, false, true⟩
  else
    let opened := storeOpen s CACHE_NAME
    match fetchAll env STATIC_CACHE_URLS with
    | .error _ => ⟨opened, false, true⟩
    | .ok entries => ⟨putAll opened CACHE_NAME entries, true, true⟩

/-- Result of the activate handler: the store afterwards, whether
`self.clients.claim()` was invoked, and whether the `waitUntil` promise
fulfilled. -/
structure ActivateResult where
  store : CacheStore
  claimCalled : Bool
  waitUntilFulfilled : Bool
deriving DecidableEq, Repr

/-- The activate listener (src/sw.js lines 37–58): `caches.keys()`, then
`Promise.all` over `caches.delete(name)` for every name other than
`CACHE_NAME`, then `clients.claim()`.  All deletions are initiated by the
`map` before `Promise.all` settles, so every non-failing deletion takes
effect; but there is no catch, so a single rejected deletion rejects the
chain and `clients.claim()` never runs. -/
def activateHandler (env : Env) (s : CacheStore) : ActivateResult :=
  ⟨s.filter (fun p => decide (p.1 = CACHE_NAME) || env.deleteFails p.1),
   !((listNamespaces s).any (fun n => decide (n ≠ CACHE_NAME) && env.deleteFails n)),
   !((listNamespaces s).any (fun n => decide (n ≠ CACHE_NAME) && env.deleteFails n))⟩

end SW

namespace SW

/-! ## Helper lemmas about the cache-store operations -/

theorem entriesMatch_entriesPut_self (es : List Entry) (url : String) (r : Response) :
    entriesMatch (entriesPut es url r) url = some r := by
  induction es with
  | nil => simp [entriesPut, entriesMatch]
  | cons hd tl ih =>
    obtain ⟨u, v⟩ := hd
    by_cases h : u = url <;> simp [entriesPut, entriesMatch, h, ih]

theorem entriesMatch_entriesPut_other (es : List Entry) (url u : String) (r : Response)
    (hne : u ≠ url) :
    entriesMatch (entriesPut es url r) u = entriesMatch es u := by
  induction es with
  | nil => simp [entriesPut, entriesMatch, Ne.symm hne]
  | cons hd tl ih =>
    obtain ⟨x, v⟩ := hd
    by_cases hx : x = url
    · subst hx
      simp [entriesPut, entriesMatch, Ne.symm hne]
    · simp [entriesPut, entriesMatch, hx, ih]

theorem nsMatch_storePut_self (s : CacheStore) (name url : String) (r : Response) :
    nsMatch (storePut s name url r) name url = some r := by
  induction s with
  | nil => simp [storePut, nsMatch, entriesMatch]
  | cons hd tl ih =>
    obtain ⟨n, es⟩ := hd
    by_cases h : n = name <;>
      simp [storePut, nsMatch, h, ih, entriesMatch_entriesPut_self]

theorem nsMatch_storePut_other (s : CacheStore) (name url u : String) (r : Response)
    (hne : u ≠ url) :
    nsMatch (storePut s name url r) name u = nsMatch s name u := by
  induction s with
  | nil => simp [storePut, nsMatch, entriesMatch, Ne.symm hne]
  | cons hd tl ih =>
    obtain ⟨n, es⟩ := hd
    by_cases h : n = name <;>
      simp [storePut, nsMatch, h, ih, entriesMatch_entriesPut_other _ _ _ _ hne]

theorem nsMatch_storePut_isSome (s : CacheStore) (name url u : String) (r : Response)
    (h : (nsMatch s name u).isSome) :
    (nsMatch (storePut s name url r) name u).isSome := by
  by_cases hu : u = url
  · subst hu
    rw [nsMatch_storePut_self]
    rfl
  · rw [nsMatch_storePut_other _ _ _ _ _ hu]
    exact h

theorem nsMatch_putAll_isSome (name u : String) (prs : List (String × Response)) :
    ∀ s : CacheStore,
      (nsMatch s name u).isSome ∨ u ∈ prs.map Prod.fst →
      (nsMatch (putAll s name prs) name u).isSome := by
  induction prs with
  | nil =>
    intro s h
    rcases h with h | h
    · exact h
    · simp at h
  | cons hd tl ih =>
    intro s h
    obtain ⟨v, r⟩ := hd
    show (nsMatch (putAll (storePut s name v r) name tl) name u).isSome
    apply ih
    rcases h with h | h
    · exact Or.inl (nsMatch_storePut_isSome _ _ _ _ _ h)
    · rw [List.map_cons] at h
      rcases List.mem_cons.mp h with h | h
      · subst h
        exact Or.inl (by rw [nsMatch_storePut_self]; rfl)
      · exact Or.inr h

theorem fetchAll_keys (env : Env) :
    ∀ (urls : List String) (prs : List (String × Response)),
      fetchAll env urls = .ok prs → prs.map Prod.fst = urls := by
  intro urls
  induction urls with
  | nil =>
    intro prs h
    simp only [fetchAll] at h
    cases h
    simp
  | cons u rest ih =>
    intro prs h
    simp only [fetchAll] at h
    cases hf : env.fetchUrl u with
    | error e => rw [hf] at h; cases h
    | ok r =>
      rw [hf] at h
      cases hrest : fetchAll env rest with
      | error e => rw [hrest] at h; cases h
      | ok prs' =>
        rw [hrest] at h
        cases h
        simp [ih _ hrest]

theorem fetchAll_error_of_mem (env : Env) :
    ∀ (urls : List String) (u : String), u ∈ urls → env.fetchUrl u = .error () →
      fetchAll env urls = .error () := by
  intro urls
  induction urls with
  | nil => intro u hu _; cases hu
  | cons v rest ih =>
    intro u hu hf
    rcases List.mem_cons.mp hu with h | h
    · subst h
      simp [fetchAll, hf]
    · cases hv : env.fetchUrl v with
      | error e => cases e; simp [fetchAll, hv]
      | ok r => simp [fetchAll, hv, ih u h hf]

end SW

namespace SW

/-! ## Concrete scenario environments -/

/-- A sample stored/network response used by the concrete scenarios. -/
def respOK : Response := ⟨200, "OK", some "text/plain", "payload"⟩

/-- Healthy environment: every fetch succeeds, no cache operation fails. -/
def envAllOk : Env := ⟨fun _ => .ok respOK, false, false, false, fun _ => false⟩

/-- Offline environment: every network fetch rejects; the cache works. -/
def envNetDown : Env := ⟨fun _ => .error (), false, false, false, fun _ => false⟩

/-- Environment where exactly the stylesheet manifest asset fails to
fetch and everything else succeeds. -/
def envCssDown : Env :=
  ⟨fun u => if u = "./styles.css" then .error () else .ok respOK,
   false, false, false, fun _ => false⟩

/-! ## Claim theorems -/

/-- C2: after an activate cycle starting from any set of existing
namespaces that includes the current one (all deletions succeeding), the
set of namespaces left is exactly the current one: every differing
namespace is deleted and the current one is kept. -/
theorem activate_purges_all_stale_namespaces (env : Env) (s : CacheStore)
    (hcur : CACHE_NAME ∈ listNamespaces s)
    (hdel : ∀ n, env.deleteFails n = false) :
    ∀ n, n ∈ listNamespaces (activateHandler env s).store ↔ n = CACHE_NAME := by
  intro n
  constructor
  · intro hn
    simp only [activateHandler, listNamespaces] at hn
    rcases List.mem_map.mp hn with ⟨p, hp, rfl⟩
    have h2 := (List.mem_filter.mp hp).2
    simp [hdel] at h2
    exact h2
  · rintro rfl
    simp only [listNamespaces] at hcur
    rcases List.mem_map.mp hcur with ⟨p, hp, hfst⟩
    simp only [activateHandler, listNamespaces]
    exact List.mem_map.mpr ⟨p, List.mem_filter.mpr ⟨hp, by simp [hfst]⟩, hfst⟩

/-- Witness for C2 at a concrete two-namespace store: the stale
`daily-reminder-v0` namespace is gone after activation. -/
theorem activate_purges_all_stale_namespaces_witness :
    "daily-reminder-v0" ∈
        listNamespaces (activateHandler envAllOk
          [("daily-reminder-v0", []), ("daily-reminder-v1", [])]).store ↔
      "daily-reminder-v0" = CACHE_NAME :=
  activate_purges_all_stale_namespaces envAllOk
    [("daily-reminder-v0", []), ("daily-reminder-v1", [])]
    (by decide) (fun _ => rfl) "daily-reminder-v0"

/-- C3: after a successful install (the handler chain reached
`skipWaiting`), every manifest URL of `STATIC_CACHE_URLS` has a stored
response in the current namespace. -/
theorem install_populates_all_manifest_assets (env : Env) (s : CacheStore)
    (h : (installHandler env s).skipWaitingCalled = true) :
    ∀ u ∈ STATIC_CACHE_URLS,
      (nsMatch (installHandler env s).store CACHE_NAME u).isSome := by
  intro u hu
  unfold installHandler at h ⊢
  by_cases ho : env.openFails = true
  · simp [ho] at h
  · simp only [ho, if_false] at h ⊢
    cases hfa : fetchAll env STATIC_CACHE_URLS with
    | error e => simp [hfa] at h
    | ok entries =>
      simp only [hfa]
      exact nsMatch_putAll_isSome CACHE_NAME u entries (storeOpen s CACHE_NAME)
        (Or.inr (by rw [fetchAll_keys env _ _ hfa]; exact hu))

/-- Witness for C3: in the healthy environment the freshly installed
store answers a lookup for the stylesheet manifest asset. -/
theorem install_populates_all_manifest_assets_witness :
    (nsMatch (installHandler envAllOk []).store CACHE_NAME "./styles.css").isSome :=
  install_populates_all_manifest_assets envAllOk [] (by decide)
    "./styles.css" (by decide)

/-- C4 counterexample: with the stylesheet asset failing to fetch, the
install is not aborted — the promise handed to `event.waitUntil` still
fulfills (the trailing catch swallows the rejection), so the transition
to the waiting state does occur, contrary to the claim; only the
`skipWaiting` signal is absent. -/
theorem install_failure_not_atomic_cex :
    envCssDown.fetchUrl "./styles.css" = .error () ∧
    (installHandler envCssDown []).waitUntilFulfilled = true ∧
    (installHandler envCssDown []).skipWaitingCalled = false := by decide

/-- C4 amended: if any manifest asset fails to fetch, no asset is stored
(`cache.addAll` is atomic) and `skipWaiting` is not invoked, but the
install event does not fail: its `waitUntil` promise fulfills because the
catch handler swallows the error, so the transition to the waiting state
still occurs. -/
theorem install_asset_failure_swallowed (env : Env) (s : CacheStore) (u : String)
    (hu : u ∈ STATIC_CACHE_URLS) (hf : env.fetchUrl u = .error ())
    (ho : env.openFails = false) :
    (installHandler env s).skipWaitingCalled = false ∧
    (installHandler env s).waitUntilFulfilled = true ∧
    (installHandler env s).store = storeOpen s CACHE_NAME := by
  have hfa := fetchAll_error_of_mem env STATIC_CACHE_URLS u hu hf
  simp [installHandler, ho, hfa]

/-- Witness for the amended C4 at the concrete failing-stylesheet
environment. -/
theorem install_asset_failure_swallowed_witness :
    (installHandler envCssDown []).skipWaitingCalled = false ∧
    (installHandler envCssDown []).waitUntilFulfilled = true ∧
    (installHandler envCssDown []).store = storeOpen [] CACHE_NAME :=
  install_asset_failure_swallowed envCssDown [] "./styles.css"
    (by decide) (by decide) rfl

end SW

namespace SW

/-- Environment for the document worst case: network down and the
fallback lookup of the cached root document itself rejecting. -/
def envDocDead : Env := ⟨fun _ => .error (), false, true, false, fun _ => false⟩

/-- Response used for the non-ok network scenario. -/
def resp404 : Response := ⟨404, "Not Found", some "text/html", "missing"⟩

/-- Environment whose network resolves every fetch with the non-ok
`resp404` response. -/
def env404 : Env := ⟨fun _ => .ok resp404, false, false, false, fun _ => false⟩

/-- Environment where deleting the stale v0 namespace rejects and every
other deletion succeeds. -/
def envV0DeleteFails : Env :=
  ⟨fun _ => .ok respOK, false, false, false, fun n => n == "daily-reminder-v0"⟩

/-- A store whose current namespace already holds one asset. -/
def cachedStore : CacheStore := [("daily-reminder-v1", [("./app.css", respOK)])]

/-- C1 counterexample: with an empty cache, a rejecting network fetch and
the catch-block lookup of `"./index.html"` also rejecting, the document
policy propagates the failure to the caller instead of returning a
response — the awaited `caches.match` inside the catch has no handler. -/
theorem document_failure_propagates_cex :
    (handleDocumentRequest envDocDead [] "./").response = .error () := rfl

/-- C1 amended: when the initial cache lookup misses or rejects and the
network fetch fails, the document policy returns a success response —
the cached fallback document when present, otherwise the synthesized
offline notice (status 200, `text/html`, non-empty body) — provided the
catch-block fallback lookup itself does not reject; if it does, the
failure propagates to the caller. -/
theorem document_total_failure_recovers (env : Env) (s : CacheStore) (url : String)
    (hmiss : env.matchFails = true ∨ storeMatch s url = none)
    (hfetch : env.fetchUrl url = .error ())
    (hfb : env.fallbackMatchFails = false) :
    ∃ resp, (handleDocumentRequest env s url).response = .ok resp ∧
      (storeMatch s "./index.html" = some resp ∨
        (resp.status = 200 ∧ resp.contentType = some "text/html" ∧ resp.body ≠ "")) := by
  have key : ∃ f r, handleDocumentRequest env s url = docCatch env s f r := by
    by_cases hmf : env.matchFails = true
    · exact ⟨0, 1, by simp [handleDocumentRequest, hmf]⟩
    · rcases hmiss with hm | hm
      · exact absurd hm hmf
      · exact ⟨1, 1, by simp [handleDocumentRequest, hmf, hm, hfetch]⟩
  obtain ⟨f, r, hk⟩ := key
  rw [hk]
  unfold docCatch
  simp only [hfb]
  cases hfbm : storeMatch s "./index.html" with
  | some offline => exact ⟨offline, rfl, Or.inl rfl⟩
  | none => exact ⟨offlineNotice, rfl, Or.inr ⟨rfl, rfl, by decide⟩⟩

/-- Witness for the amended C1: empty cache, network down, fallback
lookup working — the synthesized offline notice comes back. -/
theorem document_total_failure_recovers_witness :
    ∃ resp, (handleDocumentRequest envNetDown [] "./").response = .ok resp ∧
      (storeMatch ([] : CacheStore) "./index.html" = some resp ∨
        (resp.status = 200 ∧ resp.contentType = some "text/html" ∧ resp.body ≠ "")) :=
  document_total_failure_recovers envNetDown [] "./" (Or.inr rfl) rfl rfl

/-- C5 counterexample: a resolved non-ok (404) network response is
written into the current namespace and returned as the success result of
the asset policy — neither policy checks ok-ness before `cache.put`. -/
theorem non_ok_response_cached_cex :
    resp404.status = 404 ∧
    (handleAssetRequest env404 [] "./missing.png").response = .ok resp404 ∧
    nsMatch (handleAssetRequest env404 [] "./missing.png").store CACHE_NAME
      "./missing.png" = some resp404 := by decide

/-- C5 amended: on a cache miss with a resolved network fetch, both
policies write the response into the current namespace and return it
regardless of its status — non-2xx responses included; only a rejected
fetch falls through to the failure path. -/
theorem network_response_cached_unconditionally (env : Env) (s : CacheStore)
    (url : String) (r : Response)
    (hm : env.matchFails = false) (hmiss : storeMatch s url = none)
    (hf : env.fetchUrl url = .ok r) (ho : env.openFails = false) :
    (handleDocumentRequest env s url).response = .ok r ∧
    nsMatch (handleDocumentRequest env s url).store CACHE_NAME url = some r ∧
    (handleAssetRequest env s url).response = .ok r ∧
    nsMatch (handleAssetRequest env s url).store CACHE_NAME url = some r := by
  simp [handleDocumentRequest, handleAssetRequest, hm, hmiss, hf, ho,
    nsMatch_storePut_self]

/-- Witness for the amended C5 at the concrete 404-resolving network. -/
theorem network_response_cached_unconditionally_witness :
    (handleDocumentRequest env404 [] "./missing.png").response = .ok resp404 ∧
    nsMatch (handleDocumentRequest env404 [] "./missing.png").store CACHE_NAME
      "./missing.png" = some resp404 ∧
    (handleAssetRequest env404 [] "./missing.png").response = .ok resp404 ∧
    nsMatch (handleAssetRequest env404 [] "./missing.png").store CACHE_NAME
      "./missing.png" = some resp404 :=
  network_response_cached_unconditionally env404 [] "./missing.png" resp404
    rfl rfl rfl rfl

/-- C6 counterexample: when deleting the stale namespace rejects,
activation does not complete — `clients.claim()` is never invoked and the
activate `waitUntil` promise rejects, so the purge failure is fatal to
the remainder of activation, contrary to the claim. -/
theorem activation_purge_failure_fatal_cex :
    (activateHandler envV0DeleteFails
        [("daily-reminder-v0", []), ("daily-reminder-v1", [])]).claimCalled = false ∧
    (activateHandler envV0DeleteFails
        [("daily-reminder-v0", []), ("daily-reminder-v1", [])]).waitUntilFulfilled
      = false := by decide

/-- C6 amended: a failed deletion of one stale namespace does not undo
the other deletions (all are initiated before `Promise.all` settles, so
every stale namespace whose deletion succeeds is still removed), but the
rejection propagates: `clients.claim()` is not invoked and the activate
`waitUntil` promise rejects, with no per-namespace catch or log. -/
theorem activation_purge_failure_propagates (env : Env) (s : CacheStore) (n0 : String)
    (h0 : n0 ∈ listNamespaces s) (hne : n0 ≠ CACHE_NAME)
    (hfail : env.deleteFails n0 = true) :
    (activateHandler env s).claimCalled = false ∧
    (activateHandler env s).waitUntilFulfilled = false ∧
    ∀ p ∈ s, p.1 ≠ CACHE_NAME → env.deleteFails p.1 = false →
      p.1 ∉ listNamespaces (activateHandler env s).store := by
  have hany : (listNamespaces s).any
      (fun n => decide (n ≠ CACHE_NAME) && env.deleteFails n) = true := by
    rw [List.any_eq_true]
    refine ⟨n0, h0, ?_⟩
    simp [hne, hfail]
  refine ⟨?_, ?_, ?_⟩
  · simp only [activateHandler]
    rw [hany]
    rfl
  · simp only [activateHandler]
    rw [hany]
    rfl
  intro p hp hpne hpdel hmem
  simp only [activateHandler, listNamespaces] at hmem
  rcases List.mem_map.mp hmem with ⟨q, hq, hfst⟩
  have h2 := (List.mem_filter.mp hq).2
  rw [hfst] at h2
  simp [hpne, hpdel] at h2

/-- Witness for the amended C6 at a concrete three-namespace store. -/
theorem activation_purge_failure_propagates_witness :
    (activateHandler envV0DeleteFails
        [("daily-reminder-v0", []), ("other", []),
         ("daily-reminder-v1", [])]).claimCalled = false :=
  (activation_purge_failure_propagates envV0DeleteFails
    [("daily-reminder-v0", []), ("other", []), ("daily-reminder-v1", [])]
    "daily-reminder-v0" (by decide) (by decide) (by decide)).1

/-- C7: a request already present in the cache (with the lookup not
rejecting) is answered immediately by both policies: the cached response
comes back, the store is untouched and no network fetch happens; hence
resolving the same cached request twice yields identical results with
zero network calls. -/
theorem cached_request_served_without_network (env : Env) (s : CacheStore)
    (url : String) (r : Response)
    (hm : env.matchFails = false) (hhit : storeMatch s url = some r) :
    handleDocumentRequest env s url = ⟨.ok r, s, 0, 1, 0⟩ ∧
    handleAssetRequest env s url = ⟨.ok r, s, 0, 1, 0⟩ ∧
    handleDocumentRequest env (handleDocumentRequest env s url).store url
      = handleDocumentRequest env s url ∧
    handleAssetRequest env (handleAssetRequest env s url).store url
      = handleAssetRequest env s url := by
  have h1 : handleDocumentRequest env s url = ⟨.ok r, s, 0, 1, 0⟩ := by
    simp [handleDocumentRequest, hm, hhit]
  have h2 : handleAssetRequest env s url = ⟨.ok r, s, 0, 1, 0⟩ := by
    simp [handleAssetRequest, hm, hhit]
  exact ⟨h1, h2, by rw [h1]; exact h1, by rw [h2]; exact h2⟩

/-- Witness for C7 at a store already holding the requested asset. -/
theorem cached_request_served_without_network_witness :
    handleAssetRequest envAllOk cachedStore "./app.css"
      = ⟨.ok respOK, cachedStore, 0, 1, 0⟩ :=
  (cached_request_served_without_network envAllOk cachedStore "./app.css" respOK
    rfl rfl).2.1

/-- C8: on total failure (cache miss or rejected lookup, plus a rejected
network fetch) the asset policy answers with the fallback typed by its
URL classification: a stylesheet URL gets a `text/css` success response
with a defined body, a script URL gets the no-op script response, and
any other URL gets the 404 absence response. -/
theorem asset_total_failure_typed_fallback (env : Env) (s : CacheStore) (url : String)
    (hmiss : env.matchFails = true ∨ storeMatch s url = none)
    (hfetch : env.fetchUrl url = .error ()) :
    (handleAssetRequest env s url).response = .ok (assetFallback url) ∧
    (jsIncludes url ".css" = true →
      (assetFallback url).contentType = some "text/css" ∧
      (assetFallback url).status = 200 ∧
      (assetFallback url).body = cssFallbackBody) ∧
    (jsIncludes url ".css" = false → jsIncludes url ".js" = true →
      assetFallback url = jsFallback) ∧
    (jsIncludes url ".css" = false → jsIncludes url ".js" = false →
      (assetFallback url).status = 404 ∧
      (assetFallback url).body = "Asset not available offline") := by
  refine ⟨?_, ?_, ?_, ?_⟩
  · rcases hmiss with hm | hm
    · simp [handleAssetRequest, hm]
    · by_cases hmf : env.matchFails = true
      · simp [handleAssetRequest, hmf]
      · simp [handleAssetRequest, hmf, hm, hfetch]
  · intro hcss
    simp [assetFallback, hcss, cssFallback]
  · intro hcss hjs
    simp [assetFallback, hcss, hjs]
  · intro hcss hjs
    simp [assetFallback, hcss, hjs, notFoundFallback]

/-- Witness for C8: a missing stylesheet resolves to the typed fallback. -/
theorem asset_total_failure_typed_fallback_witness :
    (handleAssetRequest envNetDown [] "./missing.css").response
      = .ok (assetFallback "./missing.css") :=
  (asset_total_failure_typed_fallback envNetDown [] "./missing.css"
    (Or.inr rfl) rfl).1

/-- C9: a non-GET fetch event is passed through untouched: the router
yields no response, the store is unchanged, and the event causes zero
network fetches, zero cache reads and zero cache writes. -/
theorem non_get_requests_pass_through (env : Env) (s : CacheStore) (e : FetchEvent)
    (h : e.method ≠ "GET") :
    fetchHandler env s e = .passthrough ∧
    storeAfter s (fetchHandler env s e) = s ∧
    opsOf (fetchHandler env s e) = (0, 0, 0) := by
  have h1 : fetchHandler env s e = .passthrough := by simp [fetchHandler, h]
  exact ⟨h1, by rw [h1]; rfl, by rw [h1]; rfl⟩

/-- Witness for C9: a POST event is never intercepted. -/
theorem non_get_requests_pass_through_witness :
    fetchHandler envAllOk [] ⟨"POST", "document", "./"⟩ = .passthrough :=
  (non_get_requests_pass_through envAllOk [] ⟨"POST", "document", "./"⟩
    (by decide)).1

/-- C10: the fallback classification is substring-based on the full URL
and the stylesheet test comes first: on total failure, any URL containing
`".css"` anywhere — even as a non-final segment and even when it also
contains `".js"` — yields the `text/css` stylesheet fallback, and the
no-op script fallback is returned exactly when the URL contains `".js"`
but not `".css"`. -/
theorem asset_fallback_substring_precedence (env : Env) (s : CacheStore) (url : String)
    (hm : env.matchFails = false) (hmiss : storeMatch s url = none)
    (hfetch : env.fetchUrl url = .error ()) :
    (jsIncludes url ".css" = true →
      (handleAssetRequest env s url).response = .ok cssFallback) ∧
    (jsIncludes url ".css" = false → jsIncludes url ".js" = true →
      (handleAssetRequest env s url).response = .ok jsFallback) := by
  have hres : (handleAssetRequest env s url).response = .ok (assetFallback url) := by
    simp [handleAssetRequest, hm, hmiss, hfetch]
  constructor
  · intro hcss
    rw [hres]
    simp [assetFallback, hcss]
  · intro hcss hjs
    rw [hres]
    simp [assetFallback, hcss, hjs]

/-- Witness for C10: the URL `logo.css.js.png` — `".css"` in a non-final
segment, `".js"` also present — gets the stylesheet fallback. -/
theorem asset_fallback_substring_precedence_witness :
    (handleAssetRequest envNetDown [] "logo.css.js.png").response
      = .ok cssFallback :=
  (asset_fallback_substring_precedence envNetDown [] "logo.css.js.png"
    rfl rfl rfl).1 (by decide)

end SW
